import Mathlib

/-!
Verification of the avocado utility modules `avocado/utils/configure_network.py`
and `avocado/utils/disk.py` against their natural-language specification.

The Python code is shallowly embedded: the results of external commands
(process execution, ssh sessions, file reads, `wait_for` polling) are passed
in as explicit parameters, Python exceptions become an `Except PyErr` result,
and the filesystem touched by `set_ip`/`unset_ip` is an explicit association
list from path to content.
-/

/-- Python exceptions that the embedded code can raise.  `nwException` is the
module-level `NWException`, `diskUtilsError` is `DiskUtilsError`; the rest are
builtin Python exception classes. -/
inductive PyErr where
  | nwException (msg : String)
  | diskUtilsError (msg : String)
  | typeError
  | keyError
  | indexError
  | attributeError
  | unboundLocalError
  deriving DecidableEq, Repr

/-- Characters matched by the Python regex class `\s` (ASCII range). -/
def isPySpace (c : Char) : Bool :=
  c = ' ' || c = '\t' || c = '\n' || c = '\r' || c = Char.ofNat 11 || c = Char.ofNat 12

/-- List prefix test, used to model `str.startswith`. -/
def isPrefixList : List Char → List Char → Bool
  | [], _ => true
  | _ :: _, [] => false
  | a :: as, b :: bs => a == b && isPrefixList as bs

/-- Model of the Python expression `s.startswith(p)`. -/
def startswith (s p : String) : Bool :=
  isPrefixList p.toList s.toList

/-- Substring test on character lists, modelling the Python expression
`needle in hay` for strings. -/
def isSubstr (needle : List Char) : List Char → Bool
  | [] => isPrefixList needle []
  | c :: rest => isPrefixList needle (c :: rest) || isSubstr needle rest

/-- Model of `NetworkInterface.ping_check`: the ping command string built from
the interface name, peer ip, count and the `flood`/`option` arguments.  When
`flood` is truthy a literal `-f` is appended; otherwise a truthy `option`
string is appended (Python truthiness: `None` and the empty string are falsy). -/
def ping_cmd (name peer_ip count : String) (option : Option String) (flood : Bool) : String :=
  let cmd := "ping -I " ++ name ++ " " ++ peer_ip ++ " -c " ++ count
  if flood then cmd ++ " -f"
  else
    match option with
    | some o => if o = "" then cmd else cmd ++ " " ++ o
    | Option.none => cmd

/-- Model of `NetworkInterface.ping_check`.  The command is run with
`ignore_status=True`, so the process layer never raises for a non-zero exit;
`exit_status` maps the command string to the exit status observed. -/
def ping_check (name peer_ip count : String) (option : Option String) (flood : Bool)
    (exit_status : String → Int) : Bool :=
  if exit_status (ping_cmd name peer_ip count option flood) ≠ 0 then false else true

/-- Body of the `try:` block of `NetworkInterface.set_mtu`.  `run` maps a
command string to the decoded stdout of running it (or the exception it
raised); this covers both the remote-session branch and the local
`process.system`/`process.system_output` branch, which execute the same two
command strings.  `wait_for_link` models the external
`wait.wait_for(self.is_link_up, timeout=120, args=[self.name])` call, indexed
by the timeout constant. -/
def set_mtu_try (name mtu : String) (run : String → Except PyErr String)
    (wait_for_link : Nat → Except PyErr Bool) : Except PyErr Bool := do
  let _ ← run ("ip link set " ++ name ++ " mtu " ++ mtu)
  let mtu_value ← run ("ip add show " ++ name)
  if isSubstr mtu.toList mtu_value.toList then do
    let w ← wait_for_link 120
    if w then pure true else pure false
  else pure false

/-- Model of `NetworkInterface.set_mtu`: the broad `except Exception` turns any
raised exception into the return value `False`. -/
def set_mtu (name mtu : String) (run : String → Except PyErr String)
    (wait_for_link : Nat → Except PyErr Bool) : Bool :=
  match set_mtu_try name mtu run wait_for_link with
  | .ok b => b
  | .error _ => false

/-- Model of the Python call `re.split` with pattern `\s+`: the segments of `s` between maximal runs
of whitespace, including an empty segment when `s` begins or ends with
whitespace.  `acc` is the current token (reversed); `inRun` records whether
the previous character was whitespace. -/
def splitWSAux : List Char → List Char → Bool → List String
  | [], acc, _ => [String.mk acc.reverse]
  | c :: rest, acc, inRun =>
    if isPySpace c then
      if inRun then splitWSAux rest acc true
      else String.mk acc.reverse :: splitWSAux rest [] true
    else splitWSAux rest (c :: acc) false

/-- Model of the Python call `re.split` with pattern `\s+` on a string. -/
def splitWS (s : String) : List String :=
  splitWSAux s.toList [] false

/-- Model of the Python call `s.strip` with a single-space argument: remove
space characters (only the space character) from both ends. -/
def stripSp (s : String) : String :=
  String.mk (((s.toList.dropWhile (· = ' ')).reverse.dropWhile (· = ' ')).reverse)

/-- Model of the Python call `device.rstrip` with the decimal digits as the
strip set, computing the parent disk device name. -/
def rstripDigits (s : String) : String :=
  String.mk ((s.toList.reverse.dropWhile (·.isDigit)).reverse)

/-- Python list subscription `l[i]` for a non-negative index: `IndexError` when
the index is out of range. -/
def pyGet (l : List String) (i : Nat) : Except PyErr String :=
  match l.get? i with
  | some v => .ok v
  | Option.none => .error .indexError

/-- The record literal returned by `get_partition_info`: a dict with the eight
fixed keys, whose values are `value[0]` through `value[7]` (evaluated in
source order, so a too-short list raises `IndexError`). -/
def buildRecord (value : List String) : Except PyErr (List (String × String)) := do
  let f0 ← pyGet value 0
  let f1 ← pyGet value 1
  let f2 ← pyGet value 2
  let f3 ← pyGet value 3
  let f4 ← pyGet value 4
  let f5 ← pyGet value 5
  let f6 ← pyGet value 6
  let f7 ← pyGet value 7
  pure [("Device", f0), ("Boot", f1), ("Start", f2), ("End", f3),
        ("Sectors", f4), ("Size", f5), ("Id", f6), ("Type", f7)]

/-- The overflow-merging step of `get_partition_info`: when the token list has
more than 8 fields, fields 7 and onward are re-joined into the `Type` field
(separated by single spaces, then stripped of spaces). -/
def mergeOverflow (value : List String) : List String :=
  if 7 < value.length
  then value.set 7 (stripSp (String.intercalate " " (value.drop 7)))
  else value

/-- One matching line of the loop in `get_partition_info`, continued: split the
line on whitespace; when field 1 is not the boot marker `*`, insert an empty
`Boot` field after the device field (`value[1]` is read first, so a line with
fewer than two fields raises `IndexError`); merge overflow fields into `Type`;
build the fixed 8-key record. -/
def processLine (line : String) : Except PyErr (List (String × String)) :=
  match pyGet (splitWS line) 1 with
  | .error e => .error e
  | .ok v1 =>
    buildRecord (mergeOverflow
      (if v1 = "*" then splitWS line
       else (splitWS line).take 1 ++ "" :: (splitWS line).drop 1))

/-- The `for line in fdisk_lines` loop of `get_partition_info`: skip lines not
starting with the device string, process the first matching line and return
its record; return `None` (no record) when no line matches. -/
def scanLines (device : String) : List String → Except PyErr (Option (List (String × String)))
  | [] => .ok Option.none
  | line :: rest =>
    if startswith line device then
      match processLine line with
      | .ok record => .ok (some record)
      | .error e => .error e
    else scanLines device rest

/-- Model of `disk.get_partition_info`.  `disks` is the result of the external
`get_disks()` call (parsed `lsblk --json` output) and `fdisk_output` maps a
disk device to the output lines of `/sbin/fdisk -l -u` on it. -/
def get_partition_info (disks : List String) (fdisk_output : String → List String)
    (device : String) : Except PyErr (Option (List (String × String))) :=
  if device ∈ disks then .error (.diskUtilsError "provided disk partition not disk")
  else scanLines device (fdisk_output (rstripDigits device))

/-- Python values, used to model the dynamically typed data the module handles
(parsed JSON output and mixed-type comparisons). -/
inductive PyVal where
  | none
  | bool (b : Bool)
  | int (n : Int)
  | str (s : String)
  | list (elems : List PyVal)
  | dict (pairs : List (String × PyVal))

/-- Model of the Python comparison `v == n` for an integer literal `n`: ints
compare numerically, bools compare as 0/1, and every other builtin type
compares unequal to an int. -/
def pyEqInt (v : PyVal) (n : Int) : Bool :=
  match v with
  | .int m => m == n
  | .bool b => (if b then (1 : Int) else 0) == n
  | _ => false

/-- Model of `disk.is_linux_fs_type`: look up the `Type` field of the partition
record and compare it with the integer 83.  When `get_partition_info` returns
`None`, subscripting `None` with the key Type raises `TypeError`. -/
def is_linux_fs_type (disks : List String) (fdisk_output : String → List String)
    (device : String) : Except PyErr Bool :=
  match get_partition_info disks fdisk_output device with
  | .error e => .error e
  | .ok Option.none => .error .typeError
  | .ok (some record) =>
    match record.lookup "Type" with
    | some t => .ok (pyEqInt (PyVal.str t) 83)
    | Option.none => .error .keyError

/-- The boot-field normalisation step of `get_partition_info` on the
whitespace-split token list: when token 1 is not `*`, an empty boot field is
inserted after the device token. -/
def normBoot (t : List String) : List String :=
  if t.getD 1 "" = "*" then t else t.take 1 ++ "" :: t.drop 1

/-- The 8-field record `get_partition_info` reconstructs from the normalised
token list of the first matching fdisk line, with overflow tokens merged into
the `Type` field. -/
def expected_record (u : List String) : List (String × String) :=
  [("Device", u.getD 0 ""), ("Boot", u.getD 1 ""), ("Start", u.getD 2 ""),
   ("End", u.getD 3 ""), ("Sectors", u.getD 4 ""), ("Size", u.getD 5 ""),
   ("Id", u.getD 6 ""), ("Type", stripSp (String.intercalate " " (u.drop 7)))]

/-- The file system state touched by `set_ip`/`unset_ip`: an association list
from path to file content. -/
abbrev FS := List (String × String)

/-- Content of a file, or `Option.none` when the path does not exist. -/
def fsRead : FS → String → Option String
  | [], _ => Option.none
  | (p, c) :: rest, q => if p = q then some c else fsRead rest q

/-- Remove a path from the file system. -/
def fsErase : FS → String → FS
  | [], _ => []
  | (p, c) :: rest, q => if p = q then fsErase rest q else (p, c) :: fsErase rest q

/-- Create or overwrite a file (the `open(conf_file, "w")` writes). -/
def fsWrite (fs : FS) (p c : String) : FS :=
  (p, c) :: fsErase fs p

/-- Model of `NetworkInterface._move_config_file`: when the source path exists
it is renamed onto the destination (`shutil.move`); otherwise `NWException`
(`"<name> interface not available"`) is raised. -/
def move_config_file (name : String) (fs : FS) (src dest : String) : Except PyErr FS :=
  match fsRead fs src with
  | some c => .ok (fsErase (fsWrite fs dest c) src)
  | Option.none => .error (.nwException (name ++ " interface not available"))

/-- The `interface_type` forcing in `set_ip`: any truthy value passed is
replaced by the literal string `Ethernet`; `None` is formatted by `%s` as the
string `None`, the empty string stays empty. -/
def forced_interface_type : Option String → String
  | Option.none => "None"
  | some s => if s = "" then "" else "Ethernet"

/-- The config file content `set_ip` writes for the `rhel` distribution
family (the successive `network_conf.write` calls concatenated).  The
apostrophe-free `\x27` escapes stand for the single-quote characters in the
SuSE template below. -/
def rhel_ifcfg (name ipaddr netmask : String) (interface_type : Option String) : String :=
  "TYPE=" ++ forced_interface_type interface_type ++ " \n" ++
  "BOOTPROTO=none \n" ++
  "NAME=" ++ name ++ " \n" ++
  "DEVICE=" ++ name ++ " \n" ++
  "ONBOOT=yes \n" ++
  "IPADDR=" ++ ipaddr ++ " \n" ++
  "NETMASK=" ++ netmask ++ " \n" ++
  "IPV6INIT=yes \n" ++
  "IPV6_AUTOCONF=yes \n" ++
  "IPV6_DEFROUTE=yes"

/-- The config file content `set_ip` writes for the `SuSE` distribution
family. -/
def suse_ifcfg (ipaddr netmask : String) : String :=
  "IPADDR=" ++ ipaddr ++ " \n" ++
  "NETMASK=\x27" ++ netmask ++ "\x27 \n" ++
  "IPV6INIT=yes \n" ++
  "IPV6_AUTOCONF=yes \n" ++
  "IPV6_DEFROUTE=yes"

/-- Result of one `set_ip`/`unset_ip` call: the privileged interface commands
issued (`ifup`/`ifdown`, which are external and modelled as succeeding), the
file system after the call, and the exception propagated, if any.  When `err`
is present, `fs` is the state at the moment the exception was raised. -/
structure NWResult where
  actions : List String
  fs : FS
  err : Option PyErr
  deriving DecidableEq, Repr

/-- Model of `NetworkInterface.set_ip`.  `distro_name` is the result of the
external `distro.detect().name` call; `name` is the interface name
(`self.name`).  For the `rhel` family the config path is
`/etc/sysconfig/network-scripts/ifcfg-<name>`, for `SuSE` it is
`/etc/sysconfig/network/ifcfg-<name>`; the existing file is moved to the
`.backup` companion before the new content is written, and the interface is
brought up on success.  Any other family raises `NWException`. -/
def set_ip (distro_name name ipaddr netmask : String) (interface_type : Option String)
    (fs : FS) : NWResult :=
  if distro_name = "rhel" then
    match move_config_file name fs ("/etc/sysconfig/network-scripts/ifcfg-" ++ name)
        ("/etc/sysconfig/network-scripts/ifcfg-" ++ name ++ ".backup") with
    | .error e => ⟨[], fs, some e⟩
    | .ok fs1 =>
      ⟨["ifup " ++ name],
       fsWrite fs1 ("/etc/sysconfig/network-scripts/ifcfg-" ++ name)
         (rhel_ifcfg name ipaddr netmask interface_type),
       Option.none⟩
  else if distro_name = "SuSE" then
    match move_config_file name fs ("/etc/sysconfig/network/ifcfg-" ++ name)
        ("/etc/sysconfig/network/ifcfg-" ++ name ++ ".backup") with
    | .error e => ⟨[], fs, some e⟩
    | .ok fs1 =>
      ⟨["ifup " ++ name],
       fsWrite fs1 ("/etc/sysconfig/network/ifcfg-" ++ name) (suse_ifcfg ipaddr netmask),
       Option.none⟩
  else ⟨[], fs, some (.nwException "Distro not supported by API , could not set ip")⟩

/-- Model of `NetworkInterface.unset_ip`.  The source assigns `conf_file` in
two separate `if` statements (one for `rhel`, one for `SuSE`), then calls
`bring_down()` and moves the `.backup` file back over the config path.  When
the distribution family is neither, `conf_file` was never assigned, so the
reference to it raises the Python unbound-local error after the interface was
already brought down. -/
def unset_ip (distro_name name : String) (fs : FS) : NWResult :=
  if distro_name = "rhel" then
    match move_config_file name fs
        ("/etc/sysconfig/network-scripts/ifcfg-" ++ name ++ ".backup")
        ("/etc/sysconfig/network-scripts/ifcfg-" ++ name) with
    | .error e => ⟨["ifdown " ++ name], fs, some e⟩
    | .ok fs1 => ⟨["ifdown " ++ name], fs1, Option.none⟩
  else if distro_name = "SuSE" then
    match move_config_file name fs
        ("/etc/sysconfig/network/ifcfg-" ++ name ++ ".backup")
        ("/etc/sysconfig/network/ifcfg-" ++ name) with
    | .error e => ⟨["ifdown " ++ name], fs, some e⟩
    | .ok fs1 => ⟨["ifdown " ++ name], fs1, Option.none⟩
  else ⟨["ifdown " ++ name], fs, some .unboundLocalError⟩

/-- The per-family config file path used by `set_ip` and `unset_ip` (only
meaningful for the `rhel` and `SuSE` families). -/
def conf_path (distro_name name : String) : String :=
  if distro_name = "rhel" then "/etc/sysconfig/network-scripts/ifcfg-" ++ name
  else "/etc/sysconfig/network/ifcfg-" ++ name

/-- Python truthiness of a value (`if not output:` tests). -/
def pyTruthy : PyVal → Bool
  | .none => false
  | .bool b => b
  | .int n => n != 0
  | .str s => s != ""
  | .list elems => !elems.isEmpty
  | .dict pairs => !pairs.isEmpty

/-- Python subscription `obj[key]`: dict lookup by string key (`KeyError` when
absent), list indexing by int (negative indices count from the end,
`IndexError` out of range); subscripting any other builtin value raises
`TypeError`. -/
def pySubscript : PyVal → PyVal → Except PyErr PyVal
  | .dict pairs, .str k =>
    match pairs.lookup k with
    | some v => .ok v
    | Option.none => .error .keyError
  | .dict _, _ => .error .keyError
  | .list l, .int i =>
    if 0 ≤ i then
      if h : i.toNat < l.length then .ok (l.get ⟨i.toNat, h⟩) else .error .indexError
    else
      if h : 0 < (-i).toNat ∧ (-i).toNat ≤ l.length then
        .ok (l.get ⟨l.length - (-i).toNat, by omega⟩)
      else .error .indexError
  | .list _, _ => .error .typeError
  | .none, _ => .error .typeError
  | .bool _, _ => .error .typeError
  | .int _, _ => .error .typeError
  | .str _, _ => .error .typeError

/-- Model of `NetworkInterface._get_interfce_details` (name kept from the
source): `output` is the JSON value parsed from the `ip -<version> -j address
show <name>` command output.  When the value is falsy the function logs and
returns `False`; otherwise it falls off the end of the function body and
returns `None` — the parsed output itself is never returned. -/
def get_interfce_details (output : PyVal) : PyVal :=
  if pyTruthy output then PyVal.none else PyVal.bool false

/-- The `except (IndexError, KeyError): return False` handler wrapped around
the bodies of `get_ip_address` and `get_inet_detail`. -/
def catch_index_key (r : Except PyErr PyVal) : Except PyErr PyVal :=
  match r with
  | .error .indexError => .ok (.bool false)
  | .error .keyError => .ok (.bool false)
  | other => other

/-- Model of `NetworkInterface.get_ip_address`.  `output4`/`output6` are the
parsed JSON values the `ip -4 -j`/`ip -6 -j` commands would produce.  The
source tests `version == 4` in both branches, so the second branch (which
would query version 6) is unreachable, and any version other than 4 raises
`NWException("Version not supported")`, which the handler does not catch. -/
def get_ip_address (version : Int) (output4 output6 : PyVal) : Except PyErr PyVal :=
  catch_index_key (
    if version = 4 then do
      let d ← pySubscript (get_interfce_details output4) (.str "addr_info")
      let e ← pySubscript d (.int 0)
      pySubscript e (.str "local")
    else if version = 4 then do
      let d ← pySubscript (get_interfce_details output6) (.str "addr_info")
      let e ← pySubscript d (.int 0)
      pySubscript e (.str "local")
    else .error (.nwException "Version not supported"))

/-- Model of `NetworkInterface.get_inet_detail`: identical to
`get_ip_address` except that the `family` field is extracted instead of
`local`. -/
def get_inet_detail (version : Int) (output4 output6 : PyVal) : Except PyErr PyVal :=
  catch_index_key (
    if version = 4 then do
      let d ← pySubscript (get_interfce_details output4) (.str "addr_info")
      let e ← pySubscript d (.int 0)
      pySubscript e (.str "family")
    else if version = 4 then do
      let d ← pySubscript (get_interfce_details output6) (.str "addr_info")
      let e ← pySubscript d (.int 0)
      pySubscript e (.str "family")
    else .error (.nwException "Version not supported"))

/-- An established remote ssh session (external collaborator; its internals
are irrelevant to this module). -/
structure Session where
  host : String
  port : Int
  user : String
  deriving DecidableEq, Repr

/-- The NetworkInterface data: `__init__` stores the interface name and the
optional remote session. -/
structure NetworkInterface where
  name : String
  remote_session : Option Session
  deriving DecidableEq, Repr

/-- The attribute names defined on `NetworkInterface` instances: the two
fields set by `__init__` plus the methods of the class body.  Attribute
access outside this list raises `AttributeError`. -/
def networkInterfaceAttrs : List String :=
  ["name", "remote_session",
   "set_ip", "unset_ip", "ping_check", "set_mtu", "get_link_status",
   "is_link_up", "bring_up", "bring_down", "_move_config_file",
   "get_hwaddr", "set_hwaddr", "add_hwaddr", "remove_hwaddr",
   "_get_interfce_details", "get_ip_address", "get_inet_detail"]

/-- Model of `NetworkInterface.get_link_status`.  `operstate` is the content
of `/sys/class/net/<name>/operstate`.  The remote branch reads
`self.session`, an attribute `__init__` never sets (it sets
`remote_session`), so it raises `AttributeError`; the local branch returns
the file content. -/
def NetworkInterface.get_link_status (nif : NetworkInterface) (operstate : String) :
    Except PyErr String :=
  match nif.remote_session with
  | some _ =>
    if "session" ∈ networkInterfaceAttrs then .ok operstate else .error .attributeError
  | Option.none => .ok operstate

/-- Model of `NetworkInterface.is_link_up`: the source calls
`self.get_link_state()`, but the class defines `get_link_status`, so the
attribute lookup fails and `AttributeError` is raised before any comparison
with `up`/`UP` can happen.  The then-branch models the comparison the call
would perform if the attribute existed. -/
def NetworkInterface.is_link_up (nif : NetworkInterface) (operstate : String) :
    Except PyErr Bool :=
  if "get_link_state" ∈ networkInterfaceAttrs then
    match nif.get_link_status operstate with
    | .ok st => .ok (st = "up" || st = "UP")
    | .error e => .error e
  else .error .attributeError

/-- Python truthiness of the optional string fields of `Host` (`None` and the
empty string are falsy). -/
def pyTruthyOptStr : Option String → Bool
  | Option.none => false
  | some s => s != ""

/-- Strip `\s` characters from both ends of a string (Python `str.strip()`). -/
def pyStrip (s : String) : String :=
  String.mk (((s.toList.dropWhile isPySpace).reverse.dropWhile isPySpace).reverse)

/-- Split a character list on newline characters (the Python `str.split` call
with a newline separator), keeping empty segments. -/
def splitNLAux : List Char → List Char → List String
  | [], acc => [String.mk acc.reverse]
  | c :: rest, acc =>
    if c = '\n' then String.mk acc.reverse :: splitNLAux rest []
    else splitNLAux rest (c :: acc)

/-- Model of the Python `split` call on a string with a newline separator. -/
def splitNL (s : String) : List String :=
  splitNLAux s.toList []

/-- The Host data built by `Host.__init__`. -/
structure Host where
  host : Option String
  port : Int
  username : Option String
  key : Option String
  password : Option String
  session : Option Session
  interfaces : List NetworkInterface
  deriving DecidableEq, Repr

/-- Model of `Host.is_remote`: true exactly when a session object is present
(objects are always truthy). -/
def Host.is_remote (h : Host) : Bool :=
  h.session.isSome

/-- Model of `Host.__init__`, which runs `_connect` and then
`_populate_interfaces`.  `connect_result` is the outcome the external
`Session(...)` constructor would have (only consulted when `host`, `port`
and `username` are all truthy); `local_names` is the directory listing of
`/sys/class/net`; `remote_listing` is the outcome of running
`ls /sys/class/net` over the session (its stdout decoded), whose failure is
swallowed, leaving an empty name list. -/
def Host.init (host : Option String) (port : Int) (username key password : Option String)
    (connect_result : Except String Session)
    (local_names : List String) (remote_listing : Except String String) :
    Except PyErr Host :=
  match (if pyTruthyOptStr host && (port != 0) && pyTruthyOptStr username then
           match connect_result with
           | .ok s => .ok (some s)
           | .error ex => .error (PyErr.nwException ("Could not connect to host: " ++ ex))
         else .ok Option.none : Except PyErr (Option Session)) with
  | .error e => .error e
  | .ok session =>
    let names : List String :=
      match session with
      | some _ =>
        match remote_listing with
        | .ok out => splitNL (pyStrip out)
        | .error _ => []
      | Option.none => local_names
    .ok { host := host, port := port, username := username, key := key, password := password,
          session := session,
          interfaces := names.map (fun n => { name := n, remote_session := session }) }

/-- Claim C6: `ping_check` returns true exactly when the underlying ping
command exits with status zero, for every combination of the `flood` and
`option` arguments, and never raises for a non-zero exit (its codomain is a
plain boolean). -/
theorem ping_check_iff_exit_zero (name peer_ip count : String) (option : Option String)
    (flood : Bool) (exit_status : String → Int) :
    ping_check name peer_ip count option flood exit_status = true ↔
      exit_status (ping_cmd name peer_ip count option flood) = 0 := by
  unfold ping_check
  by_cases h : exit_status (ping_cmd name peer_ip count option flood) = 0 <;> simp [h]

/-- Claim C3: `set_mtu` returns true only if the configured MTU value appears
in the re-read `ip add show` output and the bounded 120-second link-up wait
reports success; any exception raised inside the try block yields the return
value false (it is never propagated, as `set_mtu` is total with a boolean
codomain). -/
theorem set_mtu_true_requires (name mtu : String) (run : String → Except PyErr String)
    (wait_for_link : Nat → Except PyErr Bool) :
    (set_mtu name mtu run wait_for_link = true →
      ∃ v, run ("ip add show " ++ name) = .ok v ∧
        isSubstr mtu.toList v.toList = true ∧ wait_for_link 120 = .ok true)
    ∧ (∀ e, set_mtu_try name mtu run wait_for_link = .error e →
        set_mtu name mtu run wait_for_link = false) := by
  constructor
  · intro h
    unfold set_mtu set_mtu_try at h
    cases h1 : run ("ip link set " ++ name ++ " mtu " ++ mtu) with
    | error e => simp [h1, bind, Except.bind] at h
    | ok u =>
      cases h2 : run ("ip add show " ++ name) with
      | error e => simp [h1, h2, bind, Except.bind] at h
      | ok v =>
        refine ⟨v, rfl, ?_⟩
        by_cases hs : isSubstr mtu.data v.data = true
        · cases h3 : wait_for_link 120 with
          | error e => simp [h1, h2, h3, hs, bind, Except.bind] at h
          | ok w =>
            cases w with
            | true => exact ⟨hs, rfl⟩
            | false => simp [h1, h2, h3, hs, bind, Except.bind, pure, Except.pure] at h
        · simp [h1, h2, hs, bind, Except.bind, pure, Except.pure] at h
  · intro e he
    unfold set_mtu
    rw [he]

theorem build_merge_eq (u : List String) (h : 8 ≤ u.length) :
    buildRecord (mergeOverflow u) = .ok (expected_record u) := by
  rcases u with _ | ⟨a, u⟩; · simp at h
  rcases u with _ | ⟨b, u⟩; · simp at h
  rcases u with _ | ⟨c, u⟩; · simp at h
  rcases u with _ | ⟨d, u⟩; · simp at h
  rcases u with _ | ⟨e, u⟩; · simp at h
  rcases u with _ | ⟨f, u⟩; · simp at h
  rcases u with _ | ⟨g, u⟩; · simp at h
  rcases u with _ | ⟨k, u⟩; · simp at h
  unfold mergeOverflow
  rw [if_pos (by simp only [List.length_cons]; omega)]
  simp [buildRecord, pyGet, expected_record, bind, Except.bind, pure, Except.pure,
        List.getD, List.set, List.drop]

theorem processLine_eq (line : String) (h2 : 2 ≤ (splitWS line).length)
    (h8 : 8 ≤ (normBoot (splitWS line)).length) :
    processLine line = .ok (expected_record (normBoot (splitWS line))) := by
  unfold processLine
  rcases ht : splitWS line with _ | ⟨x, u⟩
  · rw [ht] at h2; simp at h2
  rcases u with _ | ⟨y, s⟩
  · rw [ht] at h2; simp at h2
  rw [ht] at h8
  by_cases hy : y = "*"
  · subst hy
    have hn : normBoot (x :: "*" :: s) = x :: "*" :: s := by
      simp [normBoot, List.getD]
    rw [hn] at h8
    rw [hn]
    have hpg : pyGet (x :: "*" :: s) 1 = .ok "*" := rfl
    rw [hpg]
    dsimp only
    rw [if_pos rfl]
    exact build_merge_eq _ h8
  · have hn : normBoot (x :: y :: s) = x :: "" :: y :: s := by
      simp [normBoot, List.getD, List.get?, hy, List.take, List.drop]
    rw [hn] at h8
    rw [hn]
    have hpg : pyGet (x :: y :: s) 1 = .ok y := rfl
    rw [hpg]
    dsimp only
    rw [if_neg hy]
    have hval : (x :: y :: s).take 1 ++ "" :: (x :: y :: s).drop 1 = x :: "" :: y :: s := by
      simp [List.take, List.drop]
    rw [hval]
    exact build_merge_eq _ h8

theorem scanLines_append_skip (device : String) (pre rest : List String)
    (hpre : ∀ p ∈ pre, startswith p device = false) :
    scanLines device (pre ++ rest) = scanLines device rest := by
  induction pre with
  | nil => rfl
  | cons a t ih =>
    have ha : startswith a device = false := hpre a (by simp)
    simp only [List.cons_append, scanLines, ha]
    exact ih (fun p hp => hpre p (by simp [hp]))

/-- Claim C5: for a device that is not a whole disk, `get_partition_info`
takes the first fdisk output line starting with the exact device string and
reconstructs from it the fixed 8-field record (keys Device, Boot, Start, End,
Sectors, Size, Id, Type), merging any overflow whitespace-separated tokens
into the Type field, and returns only that first matching record.  The
hypotheses require the matching line to carry enough whitespace-separated
fields for the fixed record. -/
theorem get_partition_info_parses_first_match
    (disks : List String) (fdisk_output : String → List String) (device : String)
    (pre post : List String) (l : String)
    (hnd : device ∉ disks)
    (hout : fdisk_output (rstripDigits device) = pre ++ l :: post)
    (hpre : ∀ p ∈ pre, startswith p device = false)
    (hl : startswith l device = true)
    (h2 : 2 ≤ (splitWS l).length)
    (h8 : 8 ≤ (normBoot (splitWS l)).length) :
    get_partition_info disks fdisk_output device =
      .ok (some (expected_record (normBoot (splitWS l)))) := by
  unfold get_partition_info
  rw [if_neg hnd, hout, scanLines_append_skip device pre _ hpre]
  simp only [scanLines, hl, if_pos]
  rw [processLine_eq l h2 h8]

/-- Claim C10: for a device that is not a whole disk, when no fdisk output
line starts with the exact device string, `get_partition_info` returns no
record (Python `None`) and does not raise the disk error. -/
theorem get_partition_info_no_match
    (disks : List String) (fdisk_output : String → List String) (device : String)
    (hnd : device ∉ disks)
    (hnone : ∀ l ∈ fdisk_output (rstripDigits device), startswith l device = false) :
    get_partition_info disks fdisk_output device = .ok Option.none := by
  unfold get_partition_info
  rw [if_neg hnd]
  have : ∀ lines, (∀ l ∈ lines, startswith l device = false) →
      scanLines device lines = .ok Option.none := by
    intro lines
    induction lines with
    | nil => intro _; rfl
    | cons a t ih =>
      intro hall
      have ha : startswith a device = false := hall a (by simp)
      simp only [scanLines, ha]
      exact ih (fun p hp => hall p (by simp [hp]))
  exact this _ hnone

/-- Claim C4: `is_linux_fs_type` returns true exactly when the `Type` field of
the record returned by `get_partition_info` compares equal (under Python
equality) to the integer 83.  Since the Type field is always built from string
tokens and a string never equals an integer in Python, both sides are false on
every input, and the equivalence holds. -/
theorem is_linux_fs_type_iff (disks : List String) (fdisk_output : String → List String)
    (device : String) :
    is_linux_fs_type disks fdisk_output device = .ok true ↔
      ∃ record t, get_partition_info disks fdisk_output device = .ok (some record) ∧
        record.lookup "Type" = some t ∧ pyEqInt (PyVal.str t) 83 = true := by
  constructor
  · intro h
    unfold is_linux_fs_type at h
    cases hg : get_partition_info disks fdisk_output device with
    | error e => rw [hg] at h; simp at h
    | ok o =>
      cases o with
      | none => rw [hg] at h; simp at h
      | some record =>
        rw [hg] at h
        cases hl : record.lookup "Type" with
        | none => simp [hl] at h
        | some t => simp [hl, pyEqInt] at h
  · rintro ⟨record, t, h1, h2, h3⟩
    simp [pyEqInt] at h3

theorem fsRead_fsErase (fs : FS) (p q : String) :
    fsRead (fsErase fs p) q = if q = p then Option.none else fsRead fs q := by
  induction fs with
  | nil => simp [fsErase, fsRead]
  | cons hd t ih =>
    obtain ⟨a, b⟩ := hd
    simp only [fsErase, fsRead]
    by_cases hap : a = p
    · rw [if_pos hap, ih]
      by_cases hqp : q = p
      · simp [hqp]
      · rw [if_neg hqp, if_neg hqp, if_neg (fun h => hqp (h.symm.trans hap))]
    · rw [if_neg hap]
      simp only [fsRead]
      by_cases haq : a = q
      · rw [if_pos haq, if_pos haq, if_neg (fun h => hap (haq.trans h))]
      · rw [if_neg haq, if_neg haq, ih]

theorem fsRead_fsWrite (fs : FS) (p c q : String) :
    fsRead (fsWrite fs p c) q = if q = p then some c else fsRead fs q := by
  unfold fsWrite
  simp only [fsRead]
  rw [fsRead_fsErase]
  by_cases h : q = p
  · simp [h]
  · rw [if_neg h, if_neg h, if_neg (fun hh => h hh.symm)]

theorem append_backup_ne (s : String) : s ++ ".backup" ≠ s := by
  intro h
  have h2 : (s ++ ".backup").length = s.length := congrArg String.length h
  rw [String.length_append] at h2
  have h3 : ".backup".length = 7 := rfl
  rw [h3] at h2
  omega

theorem move_pipeline (name P content c : String) (fs : FS)
    (hc : fsRead fs P = some c) :
    move_config_file name fs P (P ++ ".backup") =
        .ok (fsErase (fsWrite fs (P ++ ".backup") c) P) ∧
    fsRead (fsWrite (fsErase (fsWrite fs (P ++ ".backup") c) P) P content)
        (P ++ ".backup") = some c ∧
    move_config_file name
        (fsWrite (fsErase (fsWrite fs (P ++ ".backup") c) P) P content) (P ++ ".backup") P =
      .ok (fsErase
            (fsWrite (fsWrite (fsErase (fsWrite fs (P ++ ".backup") c) P) P content) P c)
            (P ++ ".backup")) ∧
    fsRead (fsErase
            (fsWrite (fsWrite (fsErase (fsWrite fs (P ++ ".backup") c) P) P content) P c)
            (P ++ ".backup")) P = some c ∧
    fsRead (fsErase
            (fsWrite (fsWrite (fsErase (fsWrite fs (P ++ ".backup") c) P) P content) P c)
            (P ++ ".backup")) (P ++ ".backup") = Option.none := by
  have hb : fsRead (fsWrite (fsErase (fsWrite fs (P ++ ".backup") c) P) P content)
      (P ++ ".backup") = some c := by
    rw [fsRead_fsWrite, if_neg (append_backup_ne P), fsRead_fsErase,
        if_neg (append_backup_ne P), fsRead_fsWrite, if_pos rfl]
  refine ⟨?_, hb, ?_, ?_, ?_⟩
  · unfold move_config_file
    rw [hc]
  · unfold move_config_file
    rw [hb]
  · rw [fsRead_fsErase, if_neg (Ne.symm (append_backup_ne P)), fsRead_fsWrite, if_pos rfl]
  · rw [fsRead_fsErase, if_pos rfl]

theorem move_pipeline2 (name P content c : String) (fs : FS)
    (hb : fsRead fs (P ++ ".backup") = some c) :
    move_config_file name fs (P ++ ".backup") P =
        .ok (fsErase (fsWrite fs P c) (P ++ ".backup")) ∧
    fsRead (fsErase (fsWrite fs P c) (P ++ ".backup")) P = some c ∧
    move_config_file name (fsErase (fsWrite fs P c) (P ++ ".backup")) P (P ++ ".backup") =
      .ok (fsErase
            (fsWrite (fsErase (fsWrite fs P c) (P ++ ".backup")) (P ++ ".backup") c) P) ∧
    fsRead (fsWrite
            (fsErase (fsWrite (fsErase (fsWrite fs P c) (P ++ ".backup")) (P ++ ".backup") c) P)
            P content) (P ++ ".backup") = some c := by
  have hr : fsRead (fsErase (fsWrite fs P c) (P ++ ".backup")) P = some c := by
    rw [fsRead_fsErase, if_neg (Ne.symm (append_backup_ne P)), fsRead_fsWrite, if_pos rfl]
  refine ⟨?_, hr, ?_, ?_⟩
  · unfold move_config_file
    rw [hb]
  · unfold move_config_file
    rw [hr]
  · rw [fsRead_fsWrite, if_neg (append_backup_ne P), fsRead_fsErase,
        if_neg (append_backup_ne P), fsRead_fsWrite, if_pos rfl]

/-- Claim C7: on a supported distribution family, `unset_ip` after `set_ip`
(and vice versa) round-trips the on-disk configuration: the active config
path and its `.backup` companion exchange roles with no loss of the original
file content, provided the backup/restore move sequence completes without
interruption (the external `ifup`/`ifdown` commands are modelled as
succeeding). -/
theorem set_unset_ip_roundtrip (distro_name name ipaddr netmask : String)
    (interface_type : Option String) (fs : FS) (c : String)
    (hd : distro_name = "rhel" ∨ distro_name = "SuSE") :
    (fsRead fs (conf_path distro_name name) = some c →
      ∃ fs1, set_ip distro_name name ipaddr netmask interface_type fs =
          ⟨["ifup " ++ name], fs1, Option.none⟩ ∧
        fsRead fs1 (conf_path distro_name name ++ ".backup") = some c ∧
        ∃ fs2, unset_ip distro_name name fs1 = ⟨["ifdown " ++ name], fs2, Option.none⟩ ∧
          fsRead fs2 (conf_path distro_name name) = some c ∧
          fsRead fs2 (conf_path distro_name name ++ ".backup") = Option.none)
    ∧ (fsRead fs (conf_path distro_name name ++ ".backup") = some c →
      ∃ fs1, unset_ip distro_name name fs = ⟨["ifdown " ++ name], fs1, Option.none⟩ ∧
        fsRead fs1 (conf_path distro_name name) = some c ∧
        ∃ fs2, set_ip distro_name name ipaddr netmask interface_type fs1 =
            ⟨["ifup " ++ name], fs2, Option.none⟩ ∧
          fsRead fs2 (conf_path distro_name name ++ ".backup") = some c) := by
  rcases hd with hd | hd <;> subst hd
  · constructor
    · intro hc
      rw [show conf_path "rhel" name = "/etc/sysconfig/network-scripts/ifcfg-" ++ name
        from rfl] at hc ⊢
      obtain ⟨hm1, hb, hm2, hr1, hr2⟩ :=
        move_pipeline name ("/etc/sysconfig/network-scripts/ifcfg-" ++ name)
          (rhel_ifcfg name ipaddr netmask interface_type) c fs hc
      refine ⟨_, ?_, hb, _, ?_, hr1, hr2⟩
      · unfold set_ip
        rw [if_pos rfl, hm1]
      · unfold unset_ip
        rw [if_pos rfl, hm2]
    · intro hc
      rw [show conf_path "rhel" name = "/etc/sysconfig/network-scripts/ifcfg-" ++ name
        from rfl] at hc ⊢
      obtain ⟨hm1, hr, hm2, hb⟩ :=
        move_pipeline2 name ("/etc/sysconfig/network-scripts/ifcfg-" ++ name)
          (rhel_ifcfg name ipaddr netmask interface_type) c fs hc
      refine ⟨_, ?_, hr, _, ?_, hb⟩
      · unfold unset_ip
        rw [if_pos rfl, hm1]
      · unfold set_ip
        rw [if_pos rfl, hm2]
  · constructor
    · intro hc
      rw [show conf_path "SuSE" name = "/etc/sysconfig/network/ifcfg-" ++ name
        from rfl] at hc ⊢
      obtain ⟨hm1, hb, hm2, hr1, hr2⟩ :=
        move_pipeline name ("/etc/sysconfig/network/ifcfg-" ++ name)
          (suse_ifcfg ipaddr netmask) c fs hc
      refine ⟨_, ?_, hb, _, ?_, hr1, hr2⟩
      · unfold set_ip
        rw [if_neg (by decide), if_pos rfl, hm1]
      · unfold unset_ip
        rw [if_neg (by decide), if_pos rfl, hm2]
    · intro hc
      rw [show conf_path "SuSE" name = "/etc/sysconfig/network/ifcfg-" ++ name
        from rfl] at hc ⊢
      obtain ⟨hm1, hr, hm2, hb⟩ :=
        move_pipeline2 name ("/etc/sysconfig/network/ifcfg-" ++ name)
          (suse_ifcfg ipaddr netmask) c fs hc
      refine ⟨_, ?_, hr, _, ?_, hb⟩
      · unfold unset_ip
        rw [if_neg (by decide), if_pos rfl, hm1]
      · unfold set_ip
        rw [if_neg (by decide), if_pos rfl, hm2]

/-- Claim C8: when the detected distribution family is neither `rhel` nor
`SuSE`, `unset_ip` first brings the interface down (the `ifdown` action is
issued) and then fails with the Python unbound-variable error, because
`conf_file` is never assigned; the `NWException` of the module is not raised and
the file system is left untouched, so the backup file stays unrestored. -/
theorem unset_ip_unsupported_distro (distro_name name : String) (fs : FS)
    (h1 : distro_name ≠ "rhel") (h2 : distro_name ≠ "SuSE") :
    unset_ip distro_name name fs =
      ⟨["ifdown " ++ name], fs, some PyErr.unboundLocalError⟩ := by
  unfold unset_ip
  rw [if_neg h1, if_neg h2]

/-- Claim C1 (code bug): the source of `is_link_up` calls
`self.get_link_state()`, but the class defines `get_link_status`, so for
every interface and every operstate file content — including exactly `up` or
`UP` — the call raises `AttributeError` instead of returning a boolean. -/
theorem is_link_up_always_attribute_error (nif : NetworkInterface) (operstate : String) :
    nif.is_link_up operstate = .error PyErr.attributeError := by
  unfold NetworkInterface.is_link_up
  rw [if_neg (by decide)]

/-- Claim C2 (code bug): both version-dispatch branches of `get_ip_address`
and `get_inet_detail` test `version == 4`, so version 6 falls through to
`raise NWException("Version not supported")` (which the
`except (IndexError, KeyError)` handler does not catch); and because
`_get_interfce_details` never returns the parsed output (it returns `False`
for falsy output and `None` otherwise), the version-4 branch subscripts
`None`/`False` and always raises `TypeError` — it can neither return an
address nor the sentinel `False`. -/
theorem get_ip_address_version_dispatch_bug :
    (∀ output4 output6, get_ip_address 6 output4 output6 =
        .error (PyErr.nwException "Version not supported"))
    ∧ (∀ output4 output6, get_inet_detail 6 output4 output6 =
        .error (PyErr.nwException "Version not supported"))
    ∧ (∀ output4 output6, get_ip_address 4 output4 output6 = .error PyErr.typeError)
    ∧ (∀ output4 output6, get_inet_detail 4 output4 output6 = .error PyErr.typeError) := by
  refine ⟨?_, ?_, ?_, ?_⟩
  · intro o4 o6
    unfold get_ip_address
    rw [if_neg (by decide), if_neg (by decide)]
    rfl
  · intro o4 o6
    unfold get_inet_detail
    rw [if_neg (by decide), if_neg (by decide)]
    rfl
  · intro o4 o6
    unfold get_ip_address
    rw [if_pos rfl]
    unfold get_interfce_details
    by_cases h : pyTruthy o4 = true
    · rw [if_pos h]
      rfl
    · rw [if_neg h]
      rfl
  · intro o4 o6
    unfold get_inet_detail
    rw [if_pos rfl]
    unfold get_interfce_details
    by_cases h : pyTruthy o4 = true
    · rw [if_pos h]
      rfl
    · rw [if_neg h]
      rfl

/-- Claim C9: constructing a `Host` whose `host`, `port` or `username` is
falsy never attempts a remote session (the result does not depend on the
connection outcome, even a failing one) and raises no error; the session
stays absent, `is_remote` returns false, and the interfaces are populated
from the local `/sys/class/net` listing with no remote session attached. -/
theorem host_falsy_local (host : Option String) (port : Int)
    (username key password : Option String)
    (connect_result : Except String Session) (local_names : List String)
    (remote_listing : Except String String)
    (h : (pyTruthyOptStr host && (port != 0) && pyTruthyOptStr username) = false) :
    Host.init host port username key password connect_result local_names remote_listing =
      .ok { host := host, port := port, username := username, key := key,
            password := password, session := Option.none,
            interfaces := local_names.map
              (fun n => { name := n, remote_session := Option.none }) } ∧
    Host.is_remote
      { host := host, port := port, username := username, key := key,
        password := password, session := Option.none,
        interfaces := local_names.map
          (fun n => { name := n, remote_session := Option.none }) } = false := by
  constructor
  · unfold Host.init
    rw [if_neg (by simp [h])]
  · rfl

theorem host_falsy_local_witness :
    Host.init Option.none 22 (some "root") Option.none Option.none
        (.error "connection refused") ["lo", "eth0"] (.error "no session") =
      .ok { host := Option.none, port := 22, username := some "root", key := Option.none,
            password := Option.none, session := Option.none,
            interfaces := [{ name := "lo", remote_session := Option.none },
                           { name := "eth0", remote_session := Option.none }] } ∧
    Host.is_remote
      { host := Option.none, port := 22, username := some "root", key := Option.none,
        password := Option.none, session := Option.none,
        interfaces := [{ name := "lo", remote_session := Option.none },
                       { name := "eth0", remote_session := Option.none }] } = false :=
  host_falsy_local Option.none 22 (some "root") Option.none Option.none
    (.error "connection refused") ["lo", "eth0"] (.error "no session") (by decide)

theorem set_mtu_true_requires_witness :
    ∃ v, (Except.ok "mtu 1500 qdisc" : Except PyErr String) = .ok v ∧
      isSubstr "1500".toList v.toList = true ∧
      (Except.ok true : Except PyErr Bool) = .ok true :=
  (set_mtu_true_requires "eth0" "1500" (fun _ => .ok "mtu 1500 qdisc")
    (fun _ => .ok true)).1 (by decide)

theorem get_partition_info_parses_first_match_witness :
    get_partition_info ["/dev/sda"]
      (fun _ => ["Device     Boot Start  End  Sectors Size Id Type",
                 "/dev/sda3   2048 999424 997377 487M 82 Linux swap\n"])
      "/dev/sda3" =
      .ok (some [("Device", "/dev/sda3"), ("Boot", ""), ("Start", "2048"),
                 ("End", "999424"), ("Sectors", "997377"), ("Size", "487M"),
                 ("Id", "82"), ("Type", "Linux swap")]) := by
  rw [get_partition_info_parses_first_match ["/dev/sda"]
      (fun _ => ["Device     Boot Start  End  Sectors Size Id Type",
                 "/dev/sda3   2048 999424 997377 487M 82 Linux swap\n"])
      "/dev/sda3"
      ["Device     Boot Start  End  Sectors Size Id Type"] []
      "/dev/sda3   2048 999424 997377 487M 82 Linux swap\n"
      (by decide) rfl (by decide) (by decide) (by decide) (by decide)]
  rfl

theorem get_partition_info_no_match_witness :
    get_partition_info ["/dev/sda"]
      (fun _ => ["Disk /dev/sda: 40 GiB, 42949672960 bytes",
                 "/dev/sda1 * 2048 999424 997377 487M 83 Linux"])
      "/dev/sda3" = .ok Option.none :=
  get_partition_info_no_match ["/dev/sda"]
    (fun _ => ["Disk /dev/sda: 40 GiB, 42949672960 bytes",
               "/dev/sda1 * 2048 999424 997377 487M 83 Linux"])
    "/dev/sda3" (by decide) (by decide)

theorem set_unset_ip_roundtrip_witness :
    ∃ fs1, set_ip "rhel" "eth0" "192.168.10.2" "255.255.255.0" Option.none
        [(conf_path "rhel" "eth0", "orig")] = ⟨["ifup " ++ "eth0"], fs1, Option.none⟩ ∧
      fsRead fs1 (conf_path "rhel" "eth0" ++ ".backup") = some "orig" ∧
      ∃ fs2, unset_ip "rhel" "eth0" fs1 = ⟨["ifdown " ++ "eth0"], fs2, Option.none⟩ ∧
        fsRead fs2 (conf_path "rhel" "eth0") = some "orig" ∧
        fsRead fs2 (conf_path "rhel" "eth0" ++ ".backup") = Option.none :=
  (set_unset_ip_roundtrip "rhel" "eth0" "192.168.10.2" "255.255.255.0" Option.none
    [(conf_path "rhel" "eth0", "orig")] "orig" (Or.inl rfl)).1 (by decide)

theorem unset_ip_unsupported_distro_witness :
    unset_ip "debian" "eth0" [("/etc/sysconfig/network-scripts/ifcfg-eth0.backup", "orig")] =
      ⟨["ifdown " ++ "eth0"],
       [("/etc/sysconfig/network-scripts/ifcfg-eth0.backup", "orig")],
       some PyErr.unboundLocalError⟩ :=
  unset_ip_unsupported_distro "debian" "eth0"
    [("/etc/sysconfig/network-scripts/ifcfg-eth0.backup", "orig")]
    (by decide) (by decide)
